import Mathlib

/-!
Verification of the fern-shell OBS daemon core (crate fern-obs).

This file gives a shallow embedding of the state model, the reconciler,
the persistence writer and the connection supervisor retry policy of the
fern-obs crate, and proves the frozen specification claims about them.

Conventions of the embedding:
* Rust u64/u32/u16 counters are modelled as Nat (no arithmetic in the
  embedded code ever wraps: counters only increment and divide).
* Rust f64 statistics fields are modelled as rationals; the division
  computing drop percentages is exact rational division.
* Instant and SystemTime values are modelled as Nat timestamps passed in
  explicitly; elapsed time is Nat subtraction of the start anchor.
* Fallible operations are modelled with Except / Option; the results of
  the five network fetches performed by sync_state are inputs.
-/

/-! ## Decimal rendering (model of the Rust format! width-2 zero padding) -/

/-- Decimal digit character for a digit value, used by the decimal printer. -/
def digitChar : Nat → Char
  | 0 => '0'
  | 1 => '1'
  | 2 => '2'
  | 3 => '3'
  | 4 => '4'
  | 5 => '5'
  | 6 => '6'
  | 7 => '7'
  | 8 => '8'
  | 9 => '9'
  | _ => '*'

/-- Fuel-indexed digit list of a natural number, most significant first. -/
def natDigitsAux : Nat → Nat → List Char
  | 0, _ => []
  | fuel + 1, n =>
    if n < 10 then [digitChar n]
    else natDigitsAux fuel (n / 10) ++ [digitChar (n % 10)]

/-- Decimal representation of a natural number (model of Rust Display for u64). -/
def natDecimal (n : Nat) : String := ⟨natDigitsAux (n + 1) n⟩

/-- Zero-padded width-2 decimal, the model of the Rust format spec 02. -/
def pad2 (n : Nat) : String :=
  if n < 10 then "0" ++ natDecimal n else natDecimal n

/-- Model of RecordingState::format_timecode (state.rs lines 130-140):
formats seconds as HH:MM:SS, omitting the hour component when it is zero. -/
def format_timecode (secs : Nat) : String :=
  let hours := secs / 3600
  let minutes := (secs % 3600) / 60
  let seconds := secs % 60
  if hours > 0 then
    pad2 hours ++ ":" ++ pad2 minutes ++ ":" ++ pad2 seconds
  else
    pad2 minutes ++ ":" ++ pad2 seconds

/-! ## State model (state.rs) -/

/-- Model of RecordingState (state.rs lines 77-95). -/
structure RecordingState where
  active : Bool
  paused : Bool
  elapsed_secs : Nat
  output_path : Option String
  timecode : Option String
deriving Repr, DecidableEq

/-- Model of RecordingState::idle, the all-default idle state. -/
def RecordingState.idle : RecordingState :=
  ⟨false, false, 0, none, none⟩

/-- Model of StreamingState (state.rs lines 144-162). -/
structure StreamingState where
  active : Bool
  elapsed_secs : Nat
  timecode : Option String
  bitrate_kbps : Option Nat
  reconnecting : Bool
deriving Repr, DecidableEq

/-- Model of StreamingState::idle, the all-default idle state. -/
def StreamingState.idle : StreamingState :=
  ⟨false, 0, none, none, false⟩

/-- Model of ObsStats (state.rs lines 185-222); f64 fields become rationals. -/
structure ObsStats where
  cpu_usage : ℚ
  memory_mb : ℚ
  available_disk_mb : Option ℚ
  active_fps : ℚ
  average_frame_time_ms : ℚ
  render_missed_frames : Nat
  render_total_frames : Nat
  output_skipped_frames : Nat
  output_total_frames : Nat
  render_drop_percent : Option ℚ
  output_drop_percent : Option ℚ
deriving Repr, DecidableEq

/-- Model of ObsStats::calculate_percentages (state.rs lines 226-237):
sets each drop percentage to missed/total * 100 when the total is positive;
a branch with total zero does not touch the field. -/
def calculate_percentages (s : ObsStats) : ObsStats :=
  let renderPct : ℚ := (s.render_missed_frames : ℚ) / (s.render_total_frames : ℚ) * 100
  let outputPct : ℚ := (s.output_skipped_frames : ℚ) / (s.output_total_frames : ℚ) * 100
  let s :=
    if s.render_total_frames > 0 then { s with render_drop_percent := some renderPct } else s
  if s.output_total_frames > 0 then { s with output_drop_percent := some outputPct } else s

/-- Model of ObsState (state.rs lines 13-43), the serialized state file payload. -/
structure ObsState where
  connected : Bool
  recording : RecordingState
  streaming : StreamingState
  current_scene : Option String
  scenes : List String
  stats : Option ObsStats
  error : Option String
  updated_at_secs : Option Nat
deriving Repr, DecidableEq

/-- Model of ObsState::disconnected (state.rs lines 48-53), the default state. -/
def ObsState.disconnected : ObsState :=
  ⟨false, RecordingState.idle, StreamingState.idle, none, [], none, none, none⟩

/-! ## StateTracker (state.rs lines 244-353)

The Instant anchors recording_started and streaming_started are modelled as
Nat timestamps; Instant.now() is an explicit argument where the source calls it. -/

/-- Model of StateTracker: the serializable state plus the in-memory timers. -/
structure StateTracker where
  state : ObsState
  recording_started : Option Nat
  streaming_started : Option Nat
deriving Repr, DecidableEq

/-- Model of StateTracker::new. -/
def StateTracker.new : StateTracker :=
  ⟨ObsState.disconnected, none, none⟩

/-- Model of StateTracker::set_connected (state.rs lines 268-271). -/
def set_connected (t : StateTracker) : StateTracker :=
  { t with state := { t.state with connected := true, error := none } }

/-- Model of StateTracker::set_disconnected (state.rs lines 274-281). -/
def set_disconnected (t : StateTracker) (error : Option String) : StateTracker :=
  { t with
    state := { t.state with
      connected := false
      error := error
      recording := RecordingState.idle
      streaming := StreamingState.idle }
    recording_started := none
    streaming_started := none }

/-- Model of StateTracker::start_recording (state.rs lines 284-288); the
Instant.now() call becomes the explicit argument now. -/
def start_recording (t : StateTracker) (now : Nat) : StateTracker :=
  { t with
    recording_started := some now
    state := { t.state with
      recording := { t.state.recording with active := true, paused := false } } }

/-- Model of StateTracker::stop_recording (state.rs lines 291-294). -/
def stop_recording (t : StateTracker) : StateTracker :=
  { t with
    recording_started := none
    state := { t.state with recording := RecordingState.idle } }

/-- Model of StateTracker::start_streaming (state.rs lines 307-310). -/
def start_streaming (t : StateTracker) (now : Nat) : StateTracker :=
  { t with
    streaming_started := some now
    state := { t.state with
      streaming := { t.state.streaming with active := true } } }

/-- Model of StateTracker::stop_streaming (state.rs lines 313-316). -/
def stop_streaming (t : StateTracker) : StateTracker :=
  { t with
    streaming_started := none
    state := { t.state with streaming := StreamingState.idle } }

/-- Model of StateTracker::set_scene (state.rs lines 339-341). -/
def set_scene (t : StateTracker) (scene : String) : StateTracker :=
  { t with state := { t.state with current_scene := some scene } }

/-- Model of StateTracker::set_scenes (state.rs lines 344-346). -/
def set_scenes (t : StateTracker) (scenes : List String) : StateTracker :=
  { t with state := { t.state with scenes := scenes } }

/-- Model of StateTracker::set_stats (state.rs lines 349-352): recomputes the
derived percentages, then stores the snapshot. -/
def set_stats (t : StateTracker) (stats : ObsStats) : StateTracker :=
  { t with state := { t.state with stats := some (calculate_percentages stats) } }

/-- Model of StateTracker::update_elapsed (state.rs lines 319-336) followed by
ObsState::touch; both clock reads are the explicit argument now. -/
def update_elapsed (t : StateTracker) (now : Nat) : StateTracker :=
  let t :=
    match t.recording_started with
    | some started =>
      if !t.state.recording.paused then
        { t with state := { t.state with
            recording := { t.state.recording with
              elapsed_secs := now - started
              timecode := some (format_timecode (now - started)) } } }
      else t
    | none => t
  let t :=
    match t.streaming_started with
    | some started =>
      { t with state := { t.state with
          streaming := { t.state.streaming with
            elapsed_secs := now - started
            timecode := some (format_timecode (now - started)) } } }
    | none => t
  { t with state := { t.state with updated_at_secs := some now } }

/-! ## Errors and fetch results (error.rs, client.rs)

The five network requests issued by ObsClient::sync_state are modelled by
passing their results in as data: each reconciliation tick observes one
outcome per request, and the reconciler folds them into the tracker. -/

/-- Model of the fern-obs Error enum (error.rs lines 10-55). -/
inductive ObsError where
  | Connection (host : String) (port : Nat) (message : String)
  | WebSocket (message : String)
  | Request (message : String)
  | Auth (message : String)
  | NotConnected
  | Io (context : String)
  | Json (message : String)
  | Config (message : String)
deriving Repr, DecidableEq

/-- Model of RecordingStatus (client.rs lines 301-311). -/
structure RecordingStatus where
  active : Bool
  paused : Bool
  timecode : String
  bytes : Nat
deriving Repr, DecidableEq

/-- Model of StreamingStatus (client.rs lines 314-324). -/
structure StreamingStatus where
  active : Bool
  reconnecting : Bool
  timecode : String
  bytes : Nat
deriving Repr, DecidableEq

/-- Results of the five requests a single sync_state call can issue, in the
order the source issues them. -/
structure FetchResults where
  recording_status : Except ObsError RecordingStatus
  streaming_status : Except ObsError StreamingStatus
  current_scene : Except ObsError String
  get_scenes : Except ObsError (List String)
  get_stats : Except ObsError ObsStats
deriving Repr

/-- Recording dimension of sync_state (client.rs lines 252-265): a failed
fetch leaves the tracker untouched; an active report pauses and, when the
local model was inactive, starts the local timer; an inactive report stops
a running local timer. -/
def sync_recording (fetch : Except ObsError RecordingStatus) (now : Nat)
    (t : StateTracker) : StateTracker :=
  match fetch with
  | .error _ => t
  | .ok rec_status =>
    if rec_status.active then
      let t :=
        if rec_status.paused then
          { t with state := { t.state with
              recording := { t.state.recording with paused := true } } }
        else t
      if !t.state.recording.active then start_recording t now else t
    else if t.state.recording.active then stop_recording t
    else t

/-- Streaming dimension of sync_state (client.rs lines 268-277). -/
def sync_streaming (fetch : Except ObsError StreamingStatus) (now : Nat)
    (t : StateTracker) : StateTracker :=
  match fetch with
  | .error _ => t
  | .ok stream_status =>
    if stream_status.active then
      let t := if !t.state.streaming.active then start_streaming t now else t
      { t with state := { t.state with
          streaming := { t.state.streaming with
            reconnecting := stream_status.reconnecting } } }
    else if t.state.streaming.active then stop_streaming t
    else t

/-- Current scene dimension of sync_state (client.rs lines 280-282). -/
def sync_scene (fetch : Except ObsError String) (t : StateTracker) : StateTracker :=
  match fetch with
  | .ok scene => set_scene t scene
  | .error _ => t

/-- Scene list dimension of sync_state (client.rs lines 285-287). -/
def sync_scenes (fetch : Except ObsError (List String)) (t : StateTracker) : StateTracker :=
  match fetch with
  | .ok scenes => set_scenes t scenes
  | .error _ => t

/-- Stats dimension of sync_state (client.rs lines 290-294). -/
def sync_stats (fetch : Except ObsError ObsStats) (t : StateTracker) : StateTracker :=
  match fetch with
  | .ok stats => set_stats t stats
  | .error _ => t

/-- Model of ObsClient::sync_state (client.rs lines 248-297): marks the
tracker connected, then folds the five best-effort fetches in source order;
each individual failure is absorbed by its dimension. The returned value is
the Result the Rust function produces. -/
def sync_state (show_stats : Bool) (fetch : FetchResults) (now : Nat)
    (tracker : StateTracker) : Except ObsError StateTracker :=
  let tracker := set_connected tracker
  let tracker := sync_recording fetch.recording_status now tracker
  let tracker := sync_streaming fetch.streaming_status now tracker
  let tracker := sync_scene fetch.current_scene tracker
  let tracker := sync_scenes fetch.get_scenes tracker
  let tracker := if show_stats then sync_stats fetch.get_stats tracker else tracker
  .ok tracker

/-! ## Connection supervisor retry policy (daemon.rs) -/

/-- Model of ObsConfig (config.rs lines 7-35). -/
structure ObsConfig where
  host : String
  port : Nat
  password : Option String
  stats_interval_ms : Nat
  reconnect_interval_ms : Nat
  max_reconnect_attempts : Nat
  show_stats : Bool
deriving Repr, DecidableEq

/-- Model of ObsConfig::default (config.rs lines 57-69). -/
def ObsConfig.default : ObsConfig :=
  ⟨"localhost", 4455, none, 1000, 5000, 0, true⟩

/-- Number of fast reconnection attempts before switching to slow mode
(daemon.rs line 20). -/
def FAST_RETRY_THRESHOLD : Nat := 10

/-- Slow retry interval in milliseconds (daemon.rs line 23). -/
def SLOW_RETRY_INTERVAL_MS : Nat := 60000

/-- Outcome of one pass through the Err arm of the Daemon::run loop. -/
inductive FailOutcome where
  /-- Max reconnection attempts exceeded: run returns the connection error. -/
  | fatal
  /-- Writing the disconnected state file failed: run returns that I/O error. -/
  | publishFailed
  /-- The loop sleeps for delay_ms and retries with the recorded counters. -/
  | retry (reconnect_attempts : Nat) (in_slow_mode : Bool) (delay_ms : Nat)
deriving Repr, DecidableEq

/-- Model of the Err arm of the loop in Daemon::run (daemon.rs lines 84-128).
Arguments mirror the loop-carried state: the counter and slow-mode flag, the
connected flag of the tracker at the moment of failure, and whether the
write_state call publishing the disconnected snapshot succeeds. The source
order is: increment the counter, give up if the maximum is exceeded, publish
the disconnected state, reset to fast mode when a previously connected
session was lost in slow mode, then compute the delay. -/
def run_failure_step (config : ObsConfig) (reconnect_attempts : Nat)
    (in_slow_mode : Bool) (was_connected : Bool) (write_ok : Bool) : FailOutcome :=
  let reconnect_attempts := reconnect_attempts + 1
  if config.max_reconnect_attempts > 0 ∧
      reconnect_attempts > config.max_reconnect_attempts then
    .fatal
  else if !write_ok then
    .publishFailed
  else
    let p :=
      if was_connected && in_slow_mode then (1, false)
      else (reconnect_attempts, in_slow_mode)
    if p.1 > FAST_RETRY_THRESHOLD then
      .retry p.1 true SLOW_RETRY_INTERVAL_MS
    else
      .retry p.1 p.2 config.reconnect_interval_ms

/-- Supervisor counters after k consecutive failed connection attempts from
daemon start, with no successful session in between (so the tracker is never
connected at failure time) and every state file write succeeding. -/
def failN (config : ObsConfig) : Nat → Nat × Bool
  | 0 => (0, false)
  | k + 1 =>
    match run_failure_step config (failN config k).1 (failN config k).2 false true with
    | .retry a s _ => (a, s)
    | _ => failN config k

/-! ## JSON value layer (model of serde_json)

Serde serializes each struct as a JSON object listing the fields in
declaration order; an Option field annotated skip_serializing_if is omitted
entirely when none. The Json type mirrors the serde_json value model, with
the integer and floating number representations kept apart exactly as the
serde_json Number type keeps them apart. -/

/-- Model of a serde_json value. -/
inductive Json where
  | null
  | bool (b : Bool)
  | int (n : Int)
  | num (q : ℚ)
  | str (s : String)
  | arr (elems : List Json)
  | obj (fields : List (String × Json))

/-- Optional object field: present when the value is some, omitted when none. -/
def optField (key : String) (v : Option Json) : List (String × Json) :=
  match v with
  | some j => [(key, j)]
  | none => []

/-- Serialization of RecordingState per its serde derive (state.rs 77-95). -/
def recordingStateToJson (r : RecordingState) : Json :=
  .obj ([("active", .bool r.active), ("paused", .bool r.paused),
         ("elapsed_secs", .int (Int.ofNat r.elapsed_secs))]
    ++ optField "output_path" (r.output_path.map Json.str)
    ++ optField "timecode" (r.timecode.map Json.str))

/-- Serialization of StreamingState per its serde derive (state.rs 144-162). -/
def streamingStateToJson (s : StreamingState) : Json :=
  .obj ([("active", .bool s.active),
         ("elapsed_secs", .int (Int.ofNat s.elapsed_secs))]
    ++ optField "timecode" (s.timecode.map Json.str)
    ++ optField "bitrate_kbps" ((s.bitrate_kbps.map fun n => Json.int (Int.ofNat n)))
    ++ [("reconnecting", .bool s.reconnecting)])

/-- Serialization of ObsStats per its serde derive (state.rs 185-222). -/
def obsStatsToJson (s : ObsStats) : Json :=
  .obj ([("cpu_usage", .num s.cpu_usage), ("memory_mb", .num s.memory_mb)]
    ++ optField "available_disk_mb" (s.available_disk_mb.map Json.num)
    ++ [("active_fps", .num s.active_fps),
        ("average_frame_time_ms", .num s.average_frame_time_ms),
        ("render_missed_frames", .int (Int.ofNat s.render_missed_frames)),
        ("render_total_frames", .int (Int.ofNat s.render_total_frames)),
        ("output_skipped_frames", .int (Int.ofNat s.output_skipped_frames)),
        ("output_total_frames", .int (Int.ofNat s.output_total_frames))]
    ++ optField "render_drop_percent" (s.render_drop_percent.map Json.num)
    ++ optField "output_drop_percent" (s.output_drop_percent.map Json.num))

/-- Serialization of ObsState per its serde derive (state.rs 13-43). -/
def obsStateToJson (s : ObsState) : Json :=
  .obj ([("connected", .bool s.connected),
         ("recording", recordingStateToJson s.recording),
         ("streaming", streamingStateToJson s.streaming)]
    ++ optField "current_scene" (s.current_scene.map Json.str)
    ++ [("scenes", .arr (s.scenes.map Json.str))]
    ++ optField "stats" (s.stats.map obsStatsToJson)
    ++ optField "error" (s.error.map Json.str)
    ++ optField "updated_at_secs" ((s.updated_at_secs.map fun n => Json.int (Int.ofNat n))))

/-- Field lookup in a JSON object, first match wins. -/
def jget : List (String × Json) → String → Option Json
  | [], _ => none
  | (k, v) :: rest, key => if k = key then some v else jget rest key

/-- Required Bool field. -/
def getBool : Option Json → Option Bool
  | some (.bool b) => some b
  | _ => none

/-- Required unsigned integer field, as serde deserializes u64/u32. -/
def getNat : Option Json → Option Nat
  | some (.int (Int.ofNat n)) => some n
  | _ => none

/-- Required floating field, as serde deserializes f64. -/
def getRat : Option Json → Option ℚ
  | some (.num q) => some q
  | _ => none

/-- Optional string field: absent or null reads back as none. -/
def optStr : Option Json → Option (Option String)
  | none => some none
  | some (.str s) => some (some s)
  | some .null => some none
  | _ => none

/-- Optional unsigned integer field: absent or null reads back as none. -/
def optNat : Option Json → Option (Option Nat)
  | none => some none
  | some (.int (Int.ofNat n)) => some (some n)
  | some .null => some none
  | _ => none

/-- Optional floating field: absent or null reads back as none. -/
def optRat : Option Json → Option (Option ℚ)
  | none => some none
  | some (.num q) => some (some q)
  | some .null => some none
  | _ => none

/-- Reads a JSON array of strings, failing on any non-string element. -/
def strElems : List Json → Option (List String)
  | [] => some []
  | .str s :: rest => (strElems rest).map (fun xs => s :: xs)
  | _ => none

/-- Deserialization of RecordingState per its serde derive. -/
def recordingStateFromJson : Json → Option RecordingState
  | .obj f =>
    match getBool (jget f "active"), getBool (jget f "paused"),
        getNat (jget f "elapsed_secs"), optStr (jget f "output_path"),
        optStr (jget f "timecode") with
    | some a, some p, some e, some op, some tc => some ⟨a, p, e, op, tc⟩
    | _, _, _, _, _ => none
  | _ => none

/-- Deserialization of StreamingState per its serde derive. -/
def streamingStateFromJson : Json → Option StreamingState
  | .obj f =>
    match getBool (jget f "active"), getNat (jget f "elapsed_secs"),
        optStr (jget f "timecode"), optNat (jget f "bitrate_kbps"),
        getBool (jget f "reconnecting") with
    | some a, some e, some tc, some br, some rc => some ⟨a, e, tc, br, rc⟩
    | _, _, _, _, _ => none
  | _ => none

/-- Deserialization of ObsStats per its serde derive. -/
def obsStatsFromJson : Json → Option ObsStats
  | .obj f => do
    let cpu ← getRat (jget f "cpu_usage")
    let mem ← getRat (jget f "memory_mb")
    let disk ← optRat (jget f "available_disk_mb")
    let fps ← getRat (jget f "active_fps")
    let frame ← getRat (jget f "average_frame_time_ms")
    let rmiss ← getNat (jget f "render_missed_frames")
    let rtot ← getNat (jget f "render_total_frames")
    let oskip ← getNat (jget f "output_skipped_frames")
    let otot ← getNat (jget f "output_total_frames")
    let rpct ← optRat (jget f "render_drop_percent")
    let opct ← optRat (jget f "output_drop_percent")
    pure ⟨cpu, mem, disk, fps, frame, rmiss, rtot, oskip, otot, rpct, opct⟩
  | _ => none

/-- Scene list field with the serde default annotation: absent reads as []. -/
def optScenes : Option Json → Option (List String)
  | none => some []
  | some (.arr xs) => strElems xs
  | _ => none

/-- Optional nested stats object: absent or null reads back as none. -/
def optStats : Option Json → Option (Option ObsStats)
  | none => some none
  | some .null => some none
  | some (.obj f) => (obsStatsFromJson (.obj f)).map some
  | _ => none

/-- Deserialization of ObsState per its serde derive: connected, recording
and streaming are required; scenes falls back to the empty list when absent,
matching the serde default annotation; the remaining fields are optional. -/
def obsStateFromJson : Json → Option ObsState
  | .obj f => do
    let c ← getBool (jget f "connected")
    let r ← (jget f "recording").bind recordingStateFromJson
    let s ← (jget f "streaming").bind streamingStateFromJson
    let cs ← optStr (jget f "current_scene")
    let sc ← optScenes (jget f "scenes")
    let st ← optStats (jget f "stats")
    let er ← optStr (jget f "error")
    let up ← optNat (jget f "updated_at_secs")
    pure ⟨c, r, s, cs, sc, st, er, up⟩
  | _ => none

/-! ## Compact JSON text rendering (model of serde_json::to_string)

The daemon serializes with serde_json::to_string, the compact printer: no
indentation, no newlines, no spaces around separators. String content is
escaped, so a newline inside a payload string never reaches the output
either. The decimal formatter for the floating numbers is abstracted (it
emits a sign, decimal digits and a dot); every property proved about the
rendering depends only on the emitted characters, not the digit choice. -/

/-- Hexadecimal digit character, used for control character escapes. -/
def hexChar : Nat → Char
  | 0 => '0'
  | 1 => '1'
  | 2 => '2'
  | 3 => '3'
  | 4 => '4'
  | 5 => '5'
  | 6 => '6'
  | 7 => '7'
  | 8 => '8'
  | 9 => '9'
  | 10 => 'a'
  | 11 => 'b'
  | 12 => 'c'
  | 13 => 'd'
  | 14 => 'e'
  | 15 => 'f'
  | _ => '*'

/-- JSON string escaping of one character, as serde_json escapes it. -/
def escChar (c : Char) : List Char :=
  if c = '"' then ['\\', '"']
  else if c = '\\' then ['\\', '\\']
  else if c = '\n' then ['\\', 'n']
  else if c = '\t' then ['\\', 't']
  else if c = '\r' then ['\\', 'r']
  else if c.toNat < 32 then
    ['\\', 'u', '0', '0', hexChar (c.toNat / 16), hexChar (c.toNat % 16)]
  else [c]

/-- JSON string escaping, character by character. -/
def escapeString (s : String) : String :=
  ⟨s.data.foldr (fun c acc => escChar c ++ acc) []⟩

/-- Quoted, escaped JSON string literal. -/
def renderString (s : String) : String :=
  "\"" ++ escapeString s ++ "\""

/-- Decimal representation of an integer (model of Rust Display for i64). -/
def intDecimal : Int → String
  | .ofNat n => natDecimal n
  | .negSucc n => "-" ++ natDecimal (n + 1)

/-- Abstracted decimal formatter for the floating numbers: sign, digits and
a dot. The exact digits serde_json would print for an f64 are irrelevant to
every claim about the rendering, which only needs the formatter to emit no
whitespace and no structural characters. -/
def ratDecimal (q : ℚ) : String :=
  intDecimal q.num ++ "." ++ natDecimal q.den

mutual

/-- Compact rendering of a JSON value. -/
def render : Json → String
  | .null => "null"
  | .bool true => "true"
  | .bool false => "false"
  | .int n => intDecimal n
  | .num q => ratDecimal q
  | .str s => renderString s
  | .arr xs => "[" ++ renderElems xs ++ "]"
  | .obj fs => "\x7b" ++ renderFields fs ++ "\x7d"

/-- Compact rendering of array elements, comma separated. -/
def renderElems : List Json → String
  | [] => ""
  | [x] => render x
  | x :: y :: xs => render x ++ "," ++ renderElems (y :: xs)

/-- Compact rendering of object fields, comma separated. -/
def renderFields : List (String × Json) → String
  | [] => ""
  | [(k, v)] => renderString k ++ ":" ++ render v
  | (k, v) :: f :: fs => renderString k ++ ":" ++ render v ++ "," ++ renderFields (f :: fs)

end

/-! ## Persistence writer (daemon.rs write_state)

The filesystem effects of Daemon::write_state are modelled as the ordered
list of operations it issues. Paths are a directory plus a file name; the
Rust Path::with_extension call only ever rewrites the file name, which the
model makes explicit. -/

/-- A filesystem path, split as the containing directory and the file name. -/
structure FsPath where
  dir : String
  file : String
deriving Repr, DecidableEq

/-- One filesystem operation issued by the persistence writer. -/
inductive FsOp where
  /-- Full write of the contents to the path (std::fs::write). -/
  | write (path : FsPath) (contents : String)
  /-- Permission change to the given mode bits (std::fs::set_permissions). -/
  | setPermissions (path : FsPath) (mode : Nat)
  /-- Atomic rename of src over dst (std::fs::rename). -/
  | rename (src : FsPath) (dst : FsPath)
deriving Repr, DecidableEq

/-- Model of Rust Path::set_extension on a file name: the portion after the
final dot is replaced when the file has an extension (a dot not in leading
position); otherwise the extension is appended. -/
def replaceExtension (f ext : String) : String :=
  let cs := f.data
  match cs.reverse.findIdx? (fun c => c = '.') with
  | none => f ++ "." ++ ext
  | some i =>
    let pos := cs.length - 1 - i
    if pos = 0 then f ++ "." ++ ext
    else ⟨cs.take pos⟩ ++ "." ++ ext

/-- Model of Rust Path::with_extension: the directory never changes. -/
def withExtension (p : FsPath) (ext : String) : FsPath :=
  ⟨p.dir, replaceExtension p.file ext⟩

/-- Model of FernPaths::service_state (fern-core paths.rs lines 115-117):
the state file of a service lives under the runtime state directory and is
named after the service. -/
def service_state (state_dir : String) (service : String) : FsPath :=
  ⟨state_dir, service ++ "-state.json"⟩

/-- Model of Daemon::write_state (daemon.rs lines 182-209): refresh elapsed
times, serialize the state compactly, write the bytes to a temporary path
derived from the state path via with_extension, restrict the permissions of
the temporary file to owner read/write, and atomically rename it over the
state path. The return value lists the filesystem operations in the order
the source issues them. -/
def write_state (state_dir : String) (now : Nat) (t : StateTracker) :
    StateTracker × List FsOp :=
  let t := update_elapsed t now
  let json := render (obsStateToJson t.state)
  let state_path := service_state state_dir "obs"
  let temp_path := withExtension state_path "json.tmp"
  (t, [.write temp_path json, .setPermissions temp_path 0o600,
       .rename temp_path state_path])

/-- Whether a filesystem operation touches (writes, modifies or replaces)
the given path. -/
def touches (op : FsOp) (p : FsPath) : Bool :=
  match op with
  | .write q _ => q = p
  | .setPermissions q _ => q = p
  | .rename src dst => src = p || dst = p

/-- Keys of a JSON object. -/
def objKeys : Json → List String
  | .obj f => f.map Prod.fst
  | _ => []

/-! ## Compactness of the rendering -/

/-- A character that is not a line break, tab or carriage return. -/
abbrev safeChar (c : Char) : Prop := c ≠ '\n' ∧ c ≠ '\t' ∧ c ≠ '\r'

/-- A string confined to one line: free of line breaks, tabs and carriage
returns, as the compact serde_json printer output is. -/
abbrev singleLine (s : String) : Prop := ∀ c ∈ s.data, safeChar c

/-- Reading back an array built from strings recovers the strings. -/
theorem strElems_map (xs : List String) : strElems (xs.map Json.str) = some xs := by
  induction xs with
  | nil => rfl
  | cons x xs ih => simp [strElems, ih]

/-- Round trip for the RecordingState sub-object. -/
theorem recordingState_roundtrip (r : RecordingState) :
    recordingStateFromJson (recordingStateToJson r) = some r := by
  obtain ⟨a, p, e, op, tc⟩ := r
  cases op <;> cases tc <;> rfl

/-- Round trip for the StreamingState sub-object. -/
theorem streamingState_roundtrip (s : StreamingState) :
    streamingStateFromJson (streamingStateToJson s) = some s := by
  obtain ⟨a, e, tc, br, rc⟩ := s
  cases tc <;> cases br <;> rfl

/-- Round trip for the ObsStats sub-object. -/
theorem obsStats_roundtrip (s : ObsStats) :
    obsStatsFromJson (obsStatsToJson s) = some s := by
  obtain ⟨cpu, mem, disk, fps, frame, rmiss, rtot, oskip, otot, rpct, opct⟩ := s
  cases disk <;> cases rpct <;> cases opct <;> rfl

/-- An absent stats field reads back as none. -/
theorem optStats_none : optStats none = some none := rfl

/-- Reading back an encoded stats object recovers the stats. -/
theorem optStats_enc (v : ObsStats) :
    optStats (some (obsStatsToJson v)) = some (some v) := by
  have h : optStats (some (obsStatsToJson v)) =
      (obsStatsFromJson (obsStatsToJson v)).map some := rfl
  rw [h, obsStats_roundtrip]
  rfl

/-- Reading back an encoded recording object recovers it. -/
theorem bind_recordingState_enc (r : RecordingState) :
    (some (recordingStateToJson r)).bind recordingStateFromJson = some r := by
  simp [recordingState_roundtrip]

/-- Reading back an encoded streaming object recovers it. -/
theorem bind_streamingState_enc (s : StreamingState) :
    (some (streamingStateToJson s)).bind streamingStateFromJson = some s := by
  simp [streamingState_roundtrip]

/-- Reading back an encoded scene array recovers the scene list. -/
theorem optScenes_enc (sc : List String) :
    optScenes (some (.arr (sc.map Json.str))) = some sc := by
  simp [optScenes, strElems_map]

/-- Round trip for the full ObsState object. -/
theorem obsState_roundtrip (s : ObsState) :
    obsStateFromJson (obsStateToJson s) = some s := by
  obtain ⟨c, r, st, cs, sc, stats, er, up⟩ := s
  cases cs <;> cases stats <;> cases er <;> cases up <;>
    simp [obsStateToJson, obsStateFromJson, jget, optField, getBool, optStr,
      optNat, optStats_none, optStats_enc, optScenes_enc,
      recordingState_roundtrip, streamingState_roundtrip, strElems_map]

/-! ## Reconciler lemmas -/

/-- The recording dimension never touches the connected flag or the error. -/
theorem sync_recording_preserves (f : Except ObsError RecordingStatus) (now : Nat)
    (t : StateTracker) :
    (sync_recording f now t).state.connected = t.state.connected ∧
    (sync_recording f now t).state.error = t.state.error := by
  unfold sync_recording start_recording stop_recording
  split
  · exact ⟨rfl, rfl⟩
  · split
    · split
      · dsimp only
        split <;> exact ⟨rfl, rfl⟩
      · dsimp only
        split <;> exact ⟨rfl, rfl⟩
    · split <;> exact ⟨rfl, rfl⟩

/-- The streaming dimension never touches the connected flag or the error. -/
theorem sync_streaming_preserves (f : Except ObsError StreamingStatus) (now : Nat)
    (t : StateTracker) :
    (sync_streaming f now t).state.connected = t.state.connected ∧
    (sync_streaming f now t).state.error = t.state.error := by
  unfold sync_streaming start_streaming stop_streaming
  split
  · exact ⟨rfl, rfl⟩
  · split
    · split <;> exact ⟨rfl, rfl⟩
    · split <;> exact ⟨rfl, rfl⟩

/-- The scene dimension never touches the connected flag or the error. -/
theorem sync_scene_preserves (f : Except ObsError String) (t : StateTracker) :
    (sync_scene f t).state.connected = t.state.connected ∧
    (sync_scene f t).state.error = t.state.error := by
  cases f <;> exact ⟨rfl, rfl⟩

/-- The scene list dimension never touches the connected flag or the error. -/
theorem sync_scenes_preserves (f : Except ObsError (List String)) (t : StateTracker) :
    (sync_scenes f t).state.connected = t.state.connected ∧
    (sync_scenes f t).state.error = t.state.error := by
  cases f <;> exact ⟨rfl, rfl⟩

/-- The stats dimension never touches the connected flag or the error. -/
theorem sync_stats_preserves (f : Except ObsError ObsStats) (t : StateTracker) :
    (sync_stats f t).state.connected = t.state.connected ∧
    (sync_stats f t).state.error = t.state.error := by
  cases f <;> exact ⟨rfl, rfl⟩

/-! ## Claim theorems -/

/-- Claim C9: after set_disconnected runs on any tracker, whatever the prior
state, the model is disconnected, reports no recording and no streaming
activity, and both local timer anchors are cleared. -/
theorem set_disconnected_clears_activity (t : StateTracker) (e : Option String) :
    (set_disconnected t e).state.connected = false ∧
    (set_disconnected t e).state.recording.active = false ∧
    (set_disconnected t e).state.streaming.active = false ∧
    (set_disconnected t e).recording_started = none ∧
    (set_disconnected t e).streaming_started = none :=
  ⟨rfl, rfl, rfl, rfl, rfl⟩

/-- Claim C10: sync_state marks the tracker connected and clears the error
before any fetch is folded in, and no later step of the sync touches either
field, so every call returns a tracker with connected true and no error,
whatever the fetch outcomes were. -/
theorem sync_state_sets_connected (show_stats : Bool) (fetch : FetchResults)
    (now : Nat) (t : StateTracker) :
    ∃ t2, sync_state show_stats fetch now t = .ok t2 ∧
      t2.state.connected = true ∧ t2.state.error = none := by
  refine ⟨_, rfl, ?_, ?_⟩ <;>
  · have h1 := sync_recording_preserves fetch.recording_status now (set_connected t)
    have h2 := sync_streaming_preserves fetch.streaming_status now
      (sync_recording fetch.recording_status now (set_connected t))
    have h3 := sync_scene_preserves fetch.current_scene
      (sync_streaming fetch.streaming_status now
        (sync_recording fetch.recording_status now (set_connected t)))
    have h4 := sync_scenes_preserves fetch.get_scenes
      (sync_scene fetch.current_scene
        (sync_streaming fetch.streaming_status now
          (sync_recording fetch.recording_status now (set_connected t))))
    have h5 := sync_stats_preserves fetch.get_stats
      (sync_scenes fetch.get_scenes
        (sync_scene fetch.current_scene
          (sync_streaming fetch.streaming_status now
            (sync_recording fetch.recording_status now (set_connected t)))))
    by_cases hs : show_stats <;>
      simp_all [sync_state, set_connected]

/-- Claim C2: sync_state does not escalate anything. Evaluating the model at
a tick on which every one of the five requests fails (exactly what a lost
transport produces, since every request travels over the same session)
returns Ok, not an error: the daemon loop treats an Ok sync as a healthy
connection, so the dead branch at daemon.rs lines 161-163 never fires even
though the doc comment of sync_state promises an error when a request
fails. The resulting tracker keeps every previously fetched dimension and
reports connected with no error message. -/
theorem sync_state_absorbs_all_failures :
    sync_state true
      ⟨.error (.Request "transport lost"), .error (.Request "transport lost"),
       .error (.Request "transport lost"), .error (.Request "transport lost"),
       .error (.Request "transport lost")⟩ 7
      ⟨⟨false, RecordingState.idle, StreamingState.idle, some "Main",
        ["Main", "Alt"], none, some "previous failure", some 5⟩, none, none⟩ =
    .ok ⟨⟨true, RecordingState.idle, StreamingState.idle, some "Main",
        ["Main", "Alt"], none, none, some 5⟩, none, none⟩ := rfl

/-- Claim C3 counterexample: calculate_percentages does not clear a stale
percentage under a zero denominator. On a snapshot with zero total render
frames whose render_drop_percent is already populated, the field survives
the call, so the claim that it is absent after every run is false. -/
theorem calculate_percentages_stale_counterexample :
    (ObsStats.mk 0 0 none 0 0 0 0 0 0 (some 1) none).render_total_frames = 0 ∧
    (calculate_percentages
      (ObsStats.mk 0 0 none 0 0 0 0 0 0 (some 1) none)).render_drop_percent ≠
      none := by
  refine ⟨rfl, ?_⟩
  decide

/-- Claim C3 as amended: under a zero total the percentage field is left
unchanged, hence absent whenever it was absent before the call (which holds
for every snapshot the program builds, since the fetch site initializes the
field to None before computing); under a positive total the field is set to
exactly missed/total * 100. The render and output sides behave this way
independently of each other. -/
theorem calculate_percentages_spec (s : ObsStats) :
    (s.render_total_frames = 0 →
      (calculate_percentages s).render_drop_percent = s.render_drop_percent) ∧
    (0 < s.render_total_frames →
      (calculate_percentages s).render_drop_percent =
        some ((s.render_missed_frames : ℚ) / (s.render_total_frames : ℚ) * 100)) ∧
    (s.output_total_frames = 0 →
      (calculate_percentages s).output_drop_percent = s.output_drop_percent) ∧
    (0 < s.output_total_frames →
      (calculate_percentages s).output_drop_percent =
        some ((s.output_skipped_frames : ℚ) / (s.output_total_frames : ℚ) * 100)) := by
  obtain ⟨cpu, mem, disk, fps, frame, rmiss, rtot, oskip, otot, rpct, opct⟩ := s
  refine ⟨fun ha => ?_, fun hb => ?_, fun hc => ?_, fun hd => ?_⟩ <;>
    rcases Nat.eq_zero_or_pos rtot with h1 | h1 <;>
    rcases Nat.eq_zero_or_pos otot with h2 | h2 <;>
    (try dsimp only at *) <;>
    first
      | omega
      | simp [calculate_percentages, h1, h2]

/-- Witness for the amended C3 theorem at a concrete snapshot. -/
theorem calculate_percentages_spec_witness :
    (calculate_percentages
      (ObsStats.mk 0 0 none 0 0 5 1000 0 0 none none)).render_drop_percent =
      some ((5 : ℚ) / (1000 : ℚ) * 100) ∧
    (calculate_percentages
      (ObsStats.mk 0 0 none 0 0 5 1000 0 0 none none)).output_drop_percent =
      none :=
  ⟨(calculate_percentages_spec (ObsStats.mk 0 0 none 0 0 5 1000 0 0 none none)).2.1
      (by decide),
   (calculate_percentages_spec (ObsStats.mk 0 0 none 0 0 5 1000 0 0 none none)).2.2.1
      (by decide)⟩

/-! ## Supervisor retry lemmas -/

/-- Evaluation of a failure step when the tracker was not connected, the
publish succeeds and no attempt cap is configured. -/
theorem step_eval (cfg : ObsConfig) (hmax : cfg.max_reconnect_attempts = 0)
    (k : Nat) (slow : Bool) :
    run_failure_step cfg k slow false true =
      (if k + 1 > FAST_RETRY_THRESHOLD then
        FailOutcome.retry (k + 1) true SLOW_RETRY_INTERVAL_MS
      else FailOutcome.retry (k + 1) slow cfg.reconnect_interval_ms) := by
  unfold run_failure_step
  rw [hmax]
  simp

/-- Evaluation of a failure step after a connected session was lost while
the publish succeeds: slow or not, the cap check comes first and uses the
incremented counter. -/
theorem step_was_connected (cfg : ObsConfig) (hmax : cfg.max_reconnect_attempts = 0)
    (k : Nat) :
    run_failure_step cfg k false true true =
      (if k + 1 > FAST_RETRY_THRESHOLD then
        FailOutcome.retry (k + 1) true SLOW_RETRY_INTERVAL_MS
      else FailOutcome.retry (k + 1) false cfg.reconnect_interval_ms) := by
  unfold run_failure_step
  rw [hmax]
  simp

/-- State of the supervisor counters after k consecutive failures from the
start: the counter is k and slow mode holds exactly beyond the threshold. -/
theorem failN_spec (cfg : ObsConfig) (hmax : cfg.max_reconnect_attempts = 0) :
    ∀ k, failN cfg k = (k, decide (k > FAST_RETRY_THRESHOLD))
  | 0 => rfl
  | (k + 1) => by
    rw [failN, failN_spec cfg hmax k]
    dsimp only
    rw [step_eval cfg hmax k _]
    by_cases h : k + 1 > FAST_RETRY_THRESHOLD
    · rw [if_pos h, decide_eq_true h]
    · rw [if_neg h]
      have hk : ¬ k > FAST_RETRY_THRESHOLD := by
        unfold FAST_RETRY_THRESHOLD at h ⊢
        omega
      rw [decide_eq_false hk, decide_eq_false h]

/-! ## Claim theorems for the retry policy -/

/-- Claim C5: with no attempt cap, a run of consecutive connection failures
with no intervening success keeps the configured fast delay while the
counter is at most the threshold of 10, and from the 11th failure on every
delay is the fixed slow constant of 60000 ms; a failure following a
connected session while in slow mode resets the counter to 1 and the delay
to the fast constant. -/
theorem backoff_schedule (cfg : ObsConfig) (hmax : cfg.max_reconnect_attempts = 0)
    (k : Nat) :
    failN cfg k = (k, decide (k > FAST_RETRY_THRESHOLD)) ∧
    run_failure_step cfg k (decide (k > FAST_RETRY_THRESHOLD)) false true =
      .retry (k + 1) (decide (k + 1 > FAST_RETRY_THRESHOLD))
        (if k + 1 ≤ FAST_RETRY_THRESHOLD then cfg.reconnect_interval_ms
          else SLOW_RETRY_INTERVAL_MS) ∧
    (∀ j : Nat, run_failure_step cfg j true true true =
      .retry 1 false cfg.reconnect_interval_ms) := by
  refine ⟨failN_spec cfg hmax k, ?_, ?_⟩
  · rw [step_eval cfg hmax k _]
    by_cases h : k + 1 > FAST_RETRY_THRESHOLD
    · have h2 : ¬ k + 1 ≤ FAST_RETRY_THRESHOLD := by omega
      rw [if_pos h, if_neg h2, decide_eq_true h]
    · have h2 : k + 1 ≤ FAST_RETRY_THRESHOLD := by omega
      have hk : ¬ k > FAST_RETRY_THRESHOLD := by
        unfold FAST_RETRY_THRESHOLD at h ⊢
        omega
      rw [if_neg h, if_pos h2, decide_eq_false hk, decide_eq_false h]
  · intro j
    unfold run_failure_step
    rw [hmax]
    simp [FAST_RETRY_THRESHOLD]

/-- Witness for the C5 schedule at the default configuration, twelve
failures in. -/
theorem backoff_schedule_witness :
    failN ObsConfig.default 12 = (12, decide (12 > FAST_RETRY_THRESHOLD)) ∧
    run_failure_step ObsConfig.default 12 (decide (12 > FAST_RETRY_THRESHOLD)) false true =
      .retry (12 + 1) (decide (12 + 1 > FAST_RETRY_THRESHOLD))
        (if 12 + 1 ≤ FAST_RETRY_THRESHOLD then ObsConfig.default.reconnect_interval_ms
          else SLOW_RETRY_INTERVAL_MS) ∧
    (∀ j : Nat, run_failure_step ObsConfig.default j true true true =
      .retry 1 false ObsConfig.default.reconnect_interval_ms) :=
  backoff_schedule ObsConfig.default rfl 12

/-- Claim C1 counterexample: after ten fast-mode failures (counter 10, slow
mode off), a successful session followed immediately by a new failure does
not reset the counter to 1: the counter becomes 11, slow mode turns on and
the delay is the slow constant, because the reset branch in Daemon::run
fires only when the supervisor was already in slow mode. -/
theorem success_then_failure_counterexample :
    failN ObsConfig.default 10 = (10, false) ∧
    run_failure_step ObsConfig.default 10 false true true =
      .retry 11 true 60000 ∧
    run_failure_step ObsConfig.default 10 false true true ≠
      .retry 1 false ObsConfig.default.reconnect_interval_ms := by
  refine ⟨?_, ?_, ?_⟩ <;> decide

/-- Claim C1 as amended: after M fast-mode failures (1 <= M <= 10, so slow
mode is off), a success followed by a new failure leaves the counter at
M + 1, not 1. For M at most 9 the delay is still the fast constant with
slow mode off; at M = 10 the new failure crosses the threshold, so slow
mode turns on and the delay is the slow constant. The reset to 1 happens
only when the supervisor was already in slow mode. -/
theorem success_then_failure_counter (cfg : ObsConfig)
    (hmax : cfg.max_reconnect_attempts = 0) (M : Nat) (h1 : 1 ≤ M)
    (h2 : M ≤ FAST_RETRY_THRESHOLD) :
    failN cfg M = (M, false) ∧
    run_failure_step cfg M false true true =
      (if M + 1 ≤ FAST_RETRY_THRESHOLD then
        FailOutcome.retry (M + 1) false cfg.reconnect_interval_ms
      else FailOutcome.retry (M + 1) true SLOW_RETRY_INTERVAL_MS) := by
  constructor
  · rw [failN_spec cfg hmax M, decide_eq_false (by omega : ¬ M > FAST_RETRY_THRESHOLD)]
  · rw [step_was_connected cfg hmax M]
    by_cases h : M + 1 > FAST_RETRY_THRESHOLD
    · rw [if_pos h, if_neg (by omega : ¬ M + 1 ≤ FAST_RETRY_THRESHOLD)]
    · rw [if_neg h, if_pos (by omega : M + 1 ≤ FAST_RETRY_THRESHOLD)]

/-- Witness for the amended C1 theorem at the default configuration, three
failures then a success then a failure. -/
theorem success_then_failure_counter_witness :
    failN ObsConfig.default 3 = (3, false) ∧
    run_failure_step ObsConfig.default 3 false true true =
      (if 3 + 1 ≤ FAST_RETRY_THRESHOLD then
        FailOutcome.retry (3 + 1) false ObsConfig.default.reconnect_interval_ms
      else FailOutcome.retry (3 + 1) true SLOW_RETRY_INTERVAL_MS) :=
  success_then_failure_counter ObsConfig.default rfl 3 (by decide) (by decide)

/-- Claim C4 counterexample: with no attempt cap configured (so the claimed
fatal condition cannot hold), a failure iteration in which writing the
disconnected state file fails still makes the run loop return an error and
the daemon give up, because write_state is propagated with the question
mark operator at daemon.rs line 99. -/
theorem fatal_only_condition_counterexample :
    ObsConfig.default.max_reconnect_attempts = 0 ∧
    run_failure_step ObsConfig.default 0 false false false = .publishFailed := by
  exact ⟨rfl, rfl⟩

/-- Claim C4 as amended: a failure iteration returns the fatal outcome
carrying the connection error exactly when a cap is configured and the
incremented counter exceeds it (the check runs before the publish and
before any slow-mode reset); in addition the loop can terminate when the
disconnected-state publish fails; with no cap configured and a successful
publish, every failure leads to a retry. -/
theorem fatal_condition_spec (cfg : ObsConfig) (attempts : Nat)
    (slow was_conn write_ok : Bool) :
    (run_failure_step cfg attempts slow was_conn write_ok = .fatal ↔
      0 < cfg.max_reconnect_attempts ∧ cfg.max_reconnect_attempts < attempts + 1) ∧
    (cfg.max_reconnect_attempts = 0 → write_ok = true →
      ∃ a s d, run_failure_step cfg attempts slow was_conn write_ok = .retry a s d) := by
  constructor
  · unfold run_failure_step
    dsimp only
    constructor
    · intro h
      split_ifs at h <;> simp_all
    · intro hc
      rw [if_pos (show cfg.max_reconnect_attempts > 0 ∧
          attempts + 1 > cfg.max_reconnect_attempts from ⟨hc.1, hc.2⟩)]
  · intro h0 hw
    subst hw
    unfold run_failure_step
    rw [h0]
    dsimp only
    have hc1 : ¬ ((0 : Nat) > 0 ∧ attempts + 1 > 0) := by simp
    have hc2 : ¬ ((!true) = true) := by simp
    rw [if_neg hc1, if_neg hc2]
    split_ifs <;> exact ⟨_, _, _, rfl⟩

/-- Witness for the amended C4 theorem: with the default configuration (no
cap) and a successful publish, a failure retries. -/
theorem fatal_condition_spec_witness :
    ∃ a s d, run_failure_step ObsConfig.default 4 false true true = .retry a s d :=
  (fatal_condition_spec ObsConfig.default 4 false true true).2 rfl rfl

/-! ## Timecode lemmas -/

/-- The digit printer never emits a colon. -/
theorem digitChar_ne_colon (d : Nat) : digitChar d ≠ ':' := by
  unfold digitChar
  split <;> decide

/-- No colon ever appears among the printed digits of a number. -/
theorem natDigitsAux_no_colon (fuel : Nat) : ∀ n, ':' ∉ natDigitsAux fuel n := by
  induction fuel with
  | zero => intro n; simp [natDigitsAux]
  | succ f ih =>
    intro n
    unfold natDigitsAux
    split
    · intro h
      exact digitChar_ne_colon n (List.mem_singleton.mp h).symm
    · intro h
      rcases List.mem_append.mp h with h | h
      · exact ih _ h
      · exact digitChar_ne_colon _ (List.mem_singleton.mp h).symm

/-- With fuel available, a small number prints as its single digit. -/
theorem natDigitsAux_small (fuel n : Nat) (hf : 1 ≤ fuel) (hn : n < 10) :
    natDigitsAux fuel n = [digitChar n] := by
  cases fuel with
  | zero => omega
  | succ f =>
    unfold natDigitsAux
    rw [if_pos hn]

/-- A two-digit number prints as exactly two characters. -/
theorem natDigitsAux_len_two (n : Nat) (h1 : 10 ≤ n) (h2 : n < 100) :
    (natDigitsAux (n + 1) n).length = 2 := by
  unfold natDigitsAux
  rw [if_neg (by omega), natDigitsAux_small n (n / 10) (by omega) (by omega)]
  simp

/-- The length of a string is the length of its character list. -/
theorem string_length_data (s : String) : s.length = s.data.length := by
  cases s
  rfl

/-- Character list of the zero-padded printer. -/
theorem pad2_data (n : Nat) :
    (pad2 n).data =
      if n < 10 then '0' :: natDigitsAux (n + 1) n else natDigitsAux (n + 1) n := by
  unfold pad2 natDecimal
  split <;> rfl

/-- A value below 100 pads to exactly two characters. -/
theorem pad2_len_two (n : Nat) (h : n < 100) : (pad2 n).length = 2 := by
  rw [string_length_data, pad2_data]
  by_cases h10 : n < 10
  · rw [if_pos h10, natDigitsAux_small (n + 1) n (by omega) h10]
    rfl
  · rw [if_neg h10, natDigitsAux_len_two n (by omega) h]

/-- The digit printer returns at least one character whenever fuel remains. -/
theorem natDigitsAux_ne_nil (fuel n : Nat) (hf : 1 ≤ fuel) :
    natDigitsAux fuel n ≠ [] := by
  cases fuel with
  | zero => omega
  | succ f =>
    unfold natDigitsAux
    split <;> simp

/-- The padded component always has at least two characters. -/
theorem pad2_len_ge_two (n : Nat) : 2 ≤ (pad2 n).length := by
  rw [string_length_data, pad2_data]
  by_cases h10 : n < 10
  · rw [if_pos h10, natDigitsAux_small (n + 1) n (by omega) h10]
    simp
  · rw [if_neg h10]
    unfold natDigitsAux
    rw [if_neg h10]
    have hne := natDigitsAux_ne_nil n (n / 10) (by omega)
    rcases List.exists_cons_of_ne_nil hne with ⟨c, cs, hcs⟩
    rw [hcs]
    simp

/-- The padded component never contains a colon. -/
theorem pad2_no_colon (n : Nat) : ':' ∉ (pad2 n).data := by
  rw [pad2_data]
  by_cases h10 : n < 10
  · rw [if_pos h10]
    intro h
    rcases List.mem_cons.mp h with h | h
    · exact absurd h.symm (by decide)
    · exact natDigitsAux_no_colon _ _ h
  · rw [if_neg h10]
    exact natDigitsAux_no_colon _ _

/-- Below one hour the timecode is the padded minutes and seconds. -/
theorem format_timecode_lt (n : Nat) (h : n < 3600) :
    format_timecode n = pad2 ((n % 3600) / 60) ++ ":" ++ pad2 (n % 60) := by
  unfold format_timecode
  dsimp only
  rw [if_neg (by omega : ¬ n / 3600 > 0)]

/-- From one hour on the timecode includes the padded hours. -/
theorem format_timecode_ge (n : Nat) (h : 3600 ≤ n) :
    format_timecode n =
      pad2 (n / 3600) ++ ":" ++ pad2 ((n % 3600) / 60) ++ ":" ++ pad2 (n % 60) := by
  unfold format_timecode
  dsimp only
  rw [if_pos (by omega : n / 3600 > 0)]

/-- Claim C7: format_timecode maps the reference inputs to the reference
outputs; below one hour the result is two zero-padded two-digit components
separated by one colon (no hour component), and from one hour on it is
three colon-separated components, the hours at least two digits and the
minutes and seconds exactly two. -/
theorem format_timecode_spec :
    format_timecode 0 = "00:00" ∧ format_timecode 59 = "00:59" ∧
    format_timecode 60 = "01:00" ∧ format_timecode 3599 = "59:59" ∧
    format_timecode 3600 = "01:00:00" ∧ format_timecode 3661 = "01:01:01" ∧
    format_timecode 360000 = "100:00:00" ∧
    (∀ n, n < 3600 → ∃ mm ss, format_timecode n = mm ++ ":" ++ ss ∧
      mm.length = 2 ∧ ss.length = 2 ∧ ':' ∉ mm.data ∧ ':' ∉ ss.data) ∧
    (∀ n, 3600 ≤ n → ∃ hh mm ss,
      format_timecode n = hh ++ ":" ++ mm ++ ":" ++ ss ∧
      2 ≤ hh.length ∧ mm.length = 2 ∧ ss.length = 2 ∧
      ':' ∉ hh.data ∧ ':' ∉ mm.data ∧ ':' ∉ ss.data) := by
  refine ⟨by decide, by decide, by decide, by decide, by decide, by decide,
    by decide, ?_, ?_⟩
  · intro n h
    exact ⟨_, _, format_timecode_lt n h, pad2_len_two _ (by omega),
      pad2_len_two _ (by omega), pad2_no_colon _, pad2_no_colon _⟩
  · intro n h
    exact ⟨_, _, _, format_timecode_ge n h, pad2_len_ge_two _,
      pad2_len_two _ (by omega), pad2_len_two _ (by omega),
      pad2_no_colon _, pad2_no_colon _, pad2_no_colon _⟩

/-- Witness for the C7 theorem: the universal clauses applied at 125
seconds and at 7325 seconds. -/
theorem format_timecode_spec_witness :
    (∃ mm ss, format_timecode 125 = mm ++ ":" ++ ss ∧
      mm.length = 2 ∧ ss.length = 2 ∧ ':' ∉ mm.data ∧ ':' ∉ ss.data) ∧
    (∃ hh mm ss, format_timecode 7325 = hh ++ ":" ++ mm ++ ":" ++ ss ∧
      2 ≤ hh.length ∧ mm.length = 2 ∧ ss.length = 2 ∧
      ':' ∉ hh.data ∧ ':' ∉ mm.data ∧ ':' ∉ ss.data) :=
  ⟨format_timecode_spec.2.2.2.2.2.2.2.1 125 (by decide),
   format_timecode_spec.2.2.2.2.2.2.2.2 7325 (by decide)⟩

/-! ## Serialization claim -/

/-- Claim C8: encoding any ObsState to JSON and decoding it back reproduces
the state exactly, with all optional fields populated as well as all absent;
and every absent optional field is omitted from the encoded object outright:
its key does not occur at all, so no null or placeholder is written. -/
theorem obsState_json_roundtrip_spec (s : ObsState) :
    obsStateFromJson (obsStateToJson s) = some s ∧
    (s.current_scene = none → "current_scene" ∉ objKeys (obsStateToJson s)) ∧
    (s.stats = none → "stats" ∉ objKeys (obsStateToJson s)) ∧
    (s.error = none → "error" ∉ objKeys (obsStateToJson s)) ∧
    (s.updated_at_secs = none → "updated_at_secs" ∉ objKeys (obsStateToJson s)) := by
  refine ⟨obsState_roundtrip s, ?_, ?_, ?_, ?_⟩ <;>
  · intro h
    obtain ⟨c, r, st, cs, sc, stats, er, up⟩ := s
    cases cs <;> cases stats <;> cases er <;> cases up <;>
      simp_all [obsStateToJson, objKeys, optField]

/-- Witness for the C8 theorem at the all-optional-fields-absent state. -/
theorem obsState_json_roundtrip_spec_witness :
    obsStateFromJson (obsStateToJson ObsState.disconnected) =
      some ObsState.disconnected ∧
    "current_scene" ∉ objKeys (obsStateToJson ObsState.disconnected) ∧
    "stats" ∉ objKeys (obsStateToJson ObsState.disconnected) ∧
    "error" ∉ objKeys (obsStateToJson ObsState.disconnected) ∧
    "updated_at_secs" ∉ objKeys (obsStateToJson ObsState.disconnected) :=
  ⟨(obsState_json_roundtrip_spec ObsState.disconnected).1,
   (obsState_json_roundtrip_spec ObsState.disconnected).2.1 rfl,
   (obsState_json_roundtrip_spec ObsState.disconnected).2.2.1 rfl,
   (obsState_json_roundtrip_spec ObsState.disconnected).2.2.2.1 rfl,
   (obsState_json_roundtrip_spec ObsState.disconnected).2.2.2.2 rfl⟩

/-- Concatenation preserves the single-line property. -/
theorem singleLine_append {a b : String} (ha : singleLine a) (hb : singleLine b) :
    singleLine (a ++ b) := by
  intro c hc
  rw [String.data_append] at hc
  rcases List.mem_append.mp hc with h | h
  · exact ha c h
  · exact hb c h

/-- Hexadecimal digits are printable. -/
theorem hexChar_safe (d : Nat) : safeChar (hexChar d) := by
  unfold hexChar
  split <;> decide

/-- Decimal digits are printable. -/
theorem digitChar_safe (d : Nat) : safeChar (digitChar d) := by
  unfold digitChar
  split <;> decide

/-- The escape of any character emits no line break, tab or return. -/
theorem escChar_safe (c x : Char) (h : x ∈ escChar c) : safeChar x := by
  unfold escChar at h
  split_ifs at h with h1 h2 h3 h4 h5 h6
  · simp at h
    rcases h with rfl | rfl <;> decide
  · simp at h
    rcases h with rfl | rfl <;> decide
  · simp at h
    rcases h with rfl | rfl <;> decide
  · simp at h
    rcases h with rfl | rfl <;> decide
  · simp at h
    rcases h with rfl | rfl <;> decide
  · rcases List.mem_cons.mp h with rfl | h
    · decide
    · rcases List.mem_cons.mp h with rfl | h
      · decide
      · rcases List.mem_cons.mp h with rfl | h
        · decide
        · rcases List.mem_cons.mp h with rfl | h
          · decide
          · rcases List.mem_cons.mp h with rfl | h
            · exact hexChar_safe _
            · rcases List.mem_cons.mp h with rfl | h
              · exact hexChar_safe _
              · simp at h
  · rw [List.mem_singleton] at h
    subst h
    exact ⟨h3, h4, h5⟩

/-- Folding the escape over a character list emits only printable output. -/
theorem foldr_escChar_safe (l : List Char) (x : Char)
    (hx : x ∈ l.foldr (fun c acc => escChar c ++ acc) []) : safeChar x := by
  induction l with
  | nil => simp at hx
  | cons c cs ih =>
    rw [List.foldr_cons] at hx
    rcases List.mem_append.mp hx with h | h
    · exact escChar_safe c x h
    · exact ih h

/-- Escaped strings stay on one line. -/
theorem escapeString_safe (s : String) : singleLine (escapeString s) :=
  fun x hx => foldr_escChar_safe s.data x hx

/-- Rendered string literals stay on one line. -/
theorem renderString_safe (s : String) : singleLine (renderString s) :=
  singleLine_append (singleLine_append (by decide) (escapeString_safe s)) (by decide)

/-- Printed digit lists stay on one line. -/
theorem natDigitsAux_safe (fuel : Nat) : ∀ n x, x ∈ natDigitsAux fuel n → safeChar x := by
  induction fuel with
  | zero =>
    intro n x h
    simp [natDigitsAux] at h
  | succ f ih =>
    intro n x h
    unfold natDigitsAux at h
    split at h
    · rw [List.mem_singleton] at h
      subst h
      exact digitChar_safe n
    · rcases List.mem_append.mp h with h | h
      · exact ih _ _ h
      · rw [List.mem_singleton] at h
        subst h
        exact digitChar_safe _

/-- Printed naturals stay on one line. -/
theorem natDecimal_safe (n : Nat) : singleLine (natDecimal n) :=
  fun x hx => natDigitsAux_safe _ _ x hx

/-- Printed integers stay on one line. -/
theorem intDecimal_safe (n : Int) : singleLine (intDecimal n) := by
  cases n with
  | ofNat m =>
    rw [intDecimal]
    exact natDecimal_safe m
  | negSucc m =>
    rw [intDecimal]
    exact singleLine_append (by decide) (natDecimal_safe (m + 1))

/-- Printed rationals stay on one line. -/
theorem ratDecimal_safe (q : ℚ) : singleLine (ratDecimal q) :=
  singleLine_append (singleLine_append (intDecimal_safe q.num) (by decide))
    (natDecimal_safe q.den)

mutual

/-- The compact renderer emits no line break, tab or carriage return. -/
theorem render_safe : ∀ j : Json, singleLine (render j)
  | .null => by
    simp only [render]
    decide
  | .bool true => by
    simp only [render]
    decide
  | .bool false => by
    simp only [render]
    decide
  | .int n => by
    simp only [render]
    exact intDecimal_safe n
  | .num q => by
    simp only [render]
    exact ratDecimal_safe q
  | .str s => by
    simp only [render]
    exact renderString_safe s
  | .arr xs => by
    simp only [render]
    exact singleLine_append
      (singleLine_append (by decide) (renderElems_safe xs)) (by decide)
  | .obj fs => by
    simp only [render]
    exact singleLine_append
      (singleLine_append (by decide) (renderFields_safe fs)) (by decide)

/-- Rendered array bodies stay on one line. -/
theorem renderElems_safe : ∀ xs : List Json, singleLine (renderElems xs)
  | [] => by
    simp only [renderElems]
    decide
  | [x] => by
    simp only [renderElems]
    exact render_safe x
  | x :: y :: xs => by
    simp only [renderElems]
    exact singleLine_append
      (singleLine_append (render_safe x) (by decide))
      (renderElems_safe (y :: xs))

/-- Rendered object bodies stay on one line. -/
theorem renderFields_safe : ∀ fs : List (String × Json), singleLine (renderFields fs)
  | [] => by
    simp only [renderFields]
    decide
  | [(k, v)] => by
    simp only [renderFields]
    exact singleLine_append
      (singleLine_append (renderString_safe k) (by decide)) (render_safe v)
  | (k, v) :: f :: fs => by
    simp only [renderFields]
    exact singleLine_append
      (singleLine_append
        (singleLine_append
          (singleLine_append (renderString_safe k) (by decide)) (render_safe v))
        (by decide))
      (renderFields_safe (f :: fs))

end

/-- Claim C6: every publish serializes the model compactly (the rendering
holds no line break, tab or carriage return), writes the whole serialization
to a temporary path in the same directory as the state path, restricts the
temporary file to owner read/write (mode 600) before the rename, and the
state path itself is touched by exactly one operation: the atomic rename of
the temporary path over it. -/
theorem write_state_atomic_protocol (state_dir : String) (now : Nat)
    (t : StateTracker) :
    ∃ temp json,
      (write_state state_dir now t).2 =
        [FsOp.write temp json, FsOp.setPermissions temp 0o600,
         FsOp.rename temp (service_state state_dir "obs")] ∧
      json = render (obsStateToJson (update_elapsed t now).state) ∧
      singleLine json ∧
      temp.dir = (service_state state_dir "obs").dir ∧
      temp ≠ service_state state_dir "obs" ∧
      ∀ op ∈ (write_state state_dir now t).2,
        touches op (service_state state_dir "obs") = true →
        op = FsOp.rename temp (service_state state_dir "obs") := by
  have hneq : withExtension (service_state state_dir "obs") "json.tmp" ≠
      service_state state_dir "obs" := by
    intro h
    have h2 := congrArg FsPath.file h
    have h3 : (withExtension (service_state state_dir "obs") "json.tmp").file =
        "obs-state.json.tmp" := rfl
    have h4 : (service_state state_dir "obs").file = "obs-state.json" := rfl
    rw [h3, h4] at h2
    exact absurd h2 (by decide)
  refine ⟨withExtension (service_state state_dir "obs") "json.tmp",
    render (obsStateToJson (update_elapsed t now).state),
    rfl, rfl, render_safe _, rfl, hneq, ?_⟩
  intro op hop htouch
  have hops : (write_state state_dir now t).2 =
      [FsOp.write (withExtension (service_state state_dir "obs") "json.tmp")
         (render (obsStateToJson (update_elapsed t now).state)),
       FsOp.setPermissions
         (withExtension (service_state state_dir "obs") "json.tmp") 0o600,
       FsOp.rename (withExtension (service_state state_dir "obs") "json.tmp")
         (service_state state_dir "obs")] := rfl
  rw [hops] at hop
  simp only [List.mem_cons, List.not_mem_nil, or_false] at hop
  rcases hop with rfl | rfl | rfl
  · exact absurd (of_decide_eq_true htouch) hneq
  · exact absurd (of_decide_eq_true htouch) hneq
  · rfl

/-- Witness for the C6 theorem: at a concrete directory, timestamp and the
initial tracker, the rename clause applies to the rename operation itself. -/
theorem write_state_atomic_protocol_witness :
    ∃ temp json,
      (write_state "/state" 0 StateTracker.new).2 =
        [FsOp.write temp json, FsOp.setPermissions temp 0o600,
         FsOp.rename temp (service_state "/state" "obs")] ∧
      FsOp.rename temp (service_state "/state" "obs") =
        FsOp.rename temp (service_state "/state" "obs") := by
  obtain ⟨temp, json, hops, hjson, hline, hdir, hne, honly⟩ :=
    write_state_atomic_protocol "/state" 0 StateTracker.new
  refine ⟨temp, json, hops, ?_⟩
  exact honly (FsOp.rename temp (service_state "/state" "obs"))
    (by rw [hops]; simp)
    (by simp [touches])
